import Mathlib

/-!
Shallow embedding of the instruction-selection backend header
(`src/compiler/backend/instruction-selector.h`): the `FlagsContinuation`
tagged record, its constructors, mode-guarded accessors and mutators, the
opcode encoding, the conditional-compare chain, the graph-covering and
liveness predicates, and the SIMD shuffle canonicalization helper.

C++ `DCHECK` failures are modelled by `Option`: a function whose body would
hit a failing `DCHECK` returns `none`.  Machine integers are modelled by
`Nat` (no overflow occurs in the modelled operations: `Encode` only ORs
bits into a word).
-/

namespace V8

/-- Flags conditions used by `instruction-selector.h`.  The enum itself
lives in `instruction-codes.h` (outside the sources); the constructors
listed here are exactly those the header mentions. -/
inductive FlagsCondition where
  | kEqual
  | kNotEqual
  | kSignedLessThan
  | kSignedGreaterThanOrEqual
  | kSignedLessThanOrEqual
  | kSignedGreaterThan
  | kUnsignedLessThan
  | kUnsignedGreaterThanOrEqual
  | kUnsignedLessThanOrEqual
  | kUnsignedGreaterThan
deriving DecidableEq, Repr

/-- Modelled from the spec: `Negate()` "flips the condition to its logical
complement (e.g., less-than ↔ greater-or-equal)".  The function
`NegateFlagsCondition` is declared in `instruction-codes.h`, whose body is
not among the sources. -/
def NegateFlagsCondition : FlagsCondition → FlagsCondition
  | .kEqual => .kNotEqual
  | .kNotEqual => .kEqual
  | .kSignedLessThan => .kSignedGreaterThanOrEqual
  | .kSignedGreaterThanOrEqual => .kSignedLessThan
  | .kSignedLessThanOrEqual => .kSignedGreaterThan
  | .kSignedGreaterThan => .kSignedLessThanOrEqual
  | .kUnsignedLessThan => .kUnsignedGreaterThanOrEqual
  | .kUnsignedGreaterThanOrEqual => .kUnsignedLessThan
  | .kUnsignedLessThanOrEqual => .kUnsignedGreaterThan
  | .kUnsignedGreaterThan => .kUnsignedLessThanOrEqual

/-- Modelled from the spec: `Commute()` "rewrites the condition to its
operand-swapped equivalent (e.g., less-than → greater-than)".
`CommuteFlagsCondition` is declared in `instruction-codes.h`, whose body is
not among the sources. -/
def CommuteFlagsCondition : FlagsCondition → FlagsCondition
  | .kEqual => .kEqual
  | .kNotEqual => .kNotEqual
  | .kSignedLessThan => .kSignedGreaterThan
  | .kSignedGreaterThanOrEqual => .kSignedLessThanOrEqual
  | .kSignedLessThanOrEqual => .kSignedGreaterThanOrEqual
  | .kSignedGreaterThan => .kSignedLessThan
  | .kUnsignedLessThan => .kUnsignedGreaterThan
  | .kUnsignedGreaterThanOrEqual => .kUnsignedLessThanOrEqual
  | .kUnsignedLessThanOrEqual => .kUnsignedGreaterThanOrEqual
  | .kUnsignedGreaterThan => .kUnsignedLessThan

/-- The flags modes of a continuation, in the order of the data model
(None, Branch, ConditionalBranch, Deoptimize, Set, Trap, ConditionalTrap,
Select). -/
inductive FlagsMode where
  | kFlags_none
  | kFlags_branch
  | kFlags_conditional_branch
  | kFlags_deoptimize
  | kFlags_set
  | kFlags_trap
  | kFlags_conditional_trap
  | kFlags_select
deriving DecidableEq, Repr

/-- `turboshaft::OpIndex`: a node identity that may be invalid;
`offset = none` models the invalid sentinel, `valid()` checks against it. -/
structure OpIndex where
  offset : Option Nat
deriving DecidableEq, Repr

def OpIndex.valid (i : OpIndex) : Bool := i.offset.isSome

/-- The invalid `OpIndex` (what a default-constructed / `value_or_invalid`
index holds). -/
def OpIndex.invalid : OpIndex := ⟨none⟩

instance : Inhabited OpIndex := ⟨OpIndex.invalid⟩

abbrev InstructionCode := Nat
abbrev DeoptimizeReason := Nat
abbrev FeedbackSource := Nat
abbrev TrapId := Nat

/-- `turboshaft::Block*`: `none` models a null pointer. -/
abbrev BlockPtr := Option Nat

inductive BranchHint where
  | kNone
  | kTrue
  | kFalse
deriving DecidableEq, Repr

/-- One step of a conditional-compare chain:
`{code, compare_condition, default_flags, lhs, rhs}`. -/
structure ConditionalCompare where
  code : InstructionCode := 0
  compare_condition : FlagsCondition := .kEqual
  default_flags : FlagsCondition := .kEqual
  lhs : OpIndex := OpIndex.invalid
  rhs : OpIndex := OpIndex.invalid
deriving DecidableEq, Repr

instance : Inhabited ConditionalCompare := ⟨{}⟩

/-- `kMaxCompareChainSize`: the chain capacity constant of
`FlagsContinuation`. -/
def kMaxCompareChainSize : Nat := 4

/-- `compare_chain_t = std::array<ConditionalCompare, kMaxCompareChainSize>`:
exactly four slots. -/
structure CompareChain where
  s0 : ConditionalCompare := {}
  s1 : ConditionalCompare := {}
  s2 : ConditionalCompare := {}
  s3 : ConditionalCompare := {}
deriving DecidableEq, Repr

instance : Inhabited CompareChain := ⟨{}⟩

/-- `compares.front()`. -/
def CompareChain.front (c : CompareChain) : ConditionalCompare := c.s0

/-- The `FlagsContinuation` record: a mode discriminant plus the payload
fields, each of which the source marks "only valid if mode == ...".
Fields a C++ constructor leaves untouched are indeterminate there; the
defaults here stand in for those indeterminate values and are never exposed
by the mode-guarded accessors. -/
structure FlagsContinuation where
  mode_ : FlagsMode := .kFlags_none
  condition_ : FlagsCondition := .kEqual
  final_condition_ : FlagsCondition := .kEqual
  num_conditional_compares_ : Nat := 0
  compares_ : CompareChain := {}
  reason_ : DeoptimizeReason := 0
  node_id_ : Nat := 0
  feedback_ : FeedbackSource := 0
  frame_state_or_result_ : OpIndex := OpIndex.invalid
  true_block_ : BlockPtr := none
  false_block_ : BlockPtr := none
  trap_id_ : TrapId := 0
  true_value_ : OpIndex := OpIndex.invalid
  false_value_ : OpIndex := OpIndex.invalid
  hint_ : BranchHint := .kNone
deriving DecidableEq, Repr

namespace FlagsContinuation

def IsNone (fc : FlagsContinuation) : Bool := fc.mode_ == .kFlags_none
def IsBranch (fc : FlagsContinuation) : Bool := fc.mode_ == .kFlags_branch
def IsConditionalBranch (fc : FlagsContinuation) : Bool :=
  fc.mode_ == .kFlags_conditional_branch
def IsDeoptimize (fc : FlagsContinuation) : Bool :=
  fc.mode_ == .kFlags_deoptimize
def IsSet (fc : FlagsContinuation) : Bool := fc.mode_ == .kFlags_set
def IsTrap (fc : FlagsContinuation) : Bool := fc.mode_ == .kFlags_trap
def IsConditionalTrap (fc : FlagsContinuation) : Bool :=
  fc.mode_ == .kFlags_conditional_trap
def IsSelect (fc : FlagsContinuation) : Bool := fc.mode_ == .kFlags_select

/-- `ForBranch`: `DCHECK_NOT_NULL` on both blocks. -/
def ForBranch (condition : FlagsCondition) (true_block false_block : BlockPtr) :
    Option FlagsContinuation :=
  if true_block.isSome && false_block.isSome then
    some { mode_ := .kFlags_branch, condition_ := condition,
           true_block_ := true_block, false_block_ := false_block }
  else none

/-- `ForHintedBranch`: `DCHECK_NOT_NULL` on both blocks. -/
def ForHintedBranch (condition : FlagsCondition)
    (true_block false_block : BlockPtr) (hint : BranchHint) :
    Option FlagsContinuation :=
  if true_block.isSome && false_block.isSome then
    some { mode_ := .kFlags_branch, condition_ := condition,
           true_block_ := true_block, false_block_ := false_block,
           hint_ := hint }
  else none

/-- `ForConditionalBranch`: `condition_` is `compares.front().compare_condition`;
`DCHECK_NOT_NULL` on both blocks. -/
def ForConditionalBranch (compares : CompareChain)
    (num_conditional_compares : Nat) (branch_condition : FlagsCondition)
    (true_block false_block : BlockPtr) : Option FlagsContinuation :=
  if true_block.isSome && false_block.isSome then
    some { mode_ := .kFlags_conditional_branch,
           condition_ := compares.front.compare_condition,
           final_condition_ := branch_condition,
           num_conditional_compares_ := num_conditional_compares,
           compares_ := compares,
           true_block_ := true_block, false_block_ := false_block }
  else none

/-- `ForDeoptimize`: `DCHECK(frame_state.valid())`. -/
def ForDeoptimize (condition : FlagsCondition) (reason : DeoptimizeReason)
    (node_id : Nat) (feedback : FeedbackSource) (frame_state : OpIndex) :
    Option FlagsContinuation :=
  if frame_state.valid then
    some { mode_ := .kFlags_deoptimize, condition_ := condition,
           reason_ := reason, node_id_ := node_id, feedback_ := feedback,
           frame_state_or_result_ := frame_state }
  else none

/-- `ForDeoptimizeForTesting`: no validity check; an absent frame state is
stored as the invalid index. -/
def ForDeoptimizeForTesting (condition : FlagsCondition)
    (reason : DeoptimizeReason) (node_id : Nat) (feedback : FeedbackSource)
    (frame_state : Option OpIndex) : FlagsContinuation :=
  { mode_ := .kFlags_deoptimize, condition_ := condition,
    reason_ := reason, node_id_ := node_id, feedback_ := feedback,
    frame_state_or_result_ := frame_state.getD OpIndex.invalid }

/-- `ForSet`: `DCHECK(result.valid())`. -/
def ForSet (condition : FlagsCondition) (result : OpIndex) :
    Option FlagsContinuation :=
  if result.valid then
    some { mode_ := .kFlags_set, condition_ := condition,
           frame_state_or_result_ := result }
  else none

/-- `ForConditionalTrap`: `condition_` is `compares.front().compare_condition`. -/
def ForConditionalTrap (compares : CompareChain)
    (num_conditional_compares : Nat) (condition : FlagsCondition)
    (trap_id : TrapId) : FlagsContinuation :=
  { mode_ := .kFlags_conditional_trap,
    condition_ := compares.front.compare_condition,
    final_condition_ := condition,
    num_conditional_compares_ := num_conditional_compares,
    compares_ := compares, trap_id_ := trap_id }

/-- `ForTrap`. -/
def ForTrap (condition : FlagsCondition) (trap_id : TrapId) :
    FlagsContinuation :=
  { mode_ := .kFlags_trap, condition_ := condition, trap_id_ := trap_id }

/-- `ForSelect`: `DCHECK` that result and both values are valid. -/
def ForSelect (condition : FlagsCondition)
    (result true_value false_value : OpIndex) : Option FlagsContinuation :=
  if result.valid && true_value.valid && false_value.valid then
    some { mode_ := .kFlags_select, condition_ := condition,
           frame_state_or_result_ := result,
           true_value_ := true_value, false_value_ := false_value }
  else none

/-- `condition()`: `DCHECK(!IsNone())`. -/
def condition (fc : FlagsContinuation) : Option FlagsCondition :=
  if fc.IsNone then none else some fc.condition_

/-- `final_condition()`: `DCHECK(IsConditionalTrap() || IsConditionalBranch())`. -/
def final_condition (fc : FlagsContinuation) : Option FlagsCondition :=
  if fc.IsConditionalTrap || fc.IsConditionalBranch then
    some fc.final_condition_
  else none

/-- `reason()`: `DCHECK(IsDeoptimize())`. -/
def reason (fc : FlagsContinuation) : Option DeoptimizeReason :=
  if fc.IsDeoptimize then some fc.reason_ else none

/-- `node_id()`: `DCHECK(IsDeoptimize())`. -/
def node_id (fc : FlagsContinuation) : Option Nat :=
  if fc.IsDeoptimize then some fc.node_id_ else none

/-- `feedback()`: `DCHECK(IsDeoptimize())`. -/
def feedback (fc : FlagsContinuation) : Option FeedbackSource :=
  if fc.IsDeoptimize then some fc.feedback_ else none

/-- `frame_state()`: `DCHECK(IsDeoptimize())`. -/
def frame_state (fc : FlagsContinuation) : Option OpIndex :=
  if fc.IsDeoptimize then some fc.frame_state_or_result_ else none

/-- `result()`: `DCHECK(IsSet() || IsSelect())`. -/
def result (fc : FlagsContinuation) : Option OpIndex :=
  if fc.IsSet || fc.IsSelect then some fc.frame_state_or_result_ else none

/-- `trap_id()`: `DCHECK(IsTrap() || IsConditionalTrap())`. -/
def trap_id (fc : FlagsContinuation) : Option TrapId :=
  if fc.IsTrap || fc.IsConditionalTrap then some fc.trap_id_ else none

/-- `true_block()`: `DCHECK(IsBranch() || IsConditionalBranch())`. -/
def true_block (fc : FlagsContinuation) : Option BlockPtr :=
  if fc.IsBranch || fc.IsConditionalBranch then some fc.true_block_ else none

/-- `false_block()`: `DCHECK(IsBranch() || IsConditionalBranch())`. -/
def false_block (fc : FlagsContinuation) : Option BlockPtr :=
  if fc.IsBranch || fc.IsConditionalBranch then some fc.false_block_ else none

/-- `hint()`: `DCHECK(IsBranch())`. -/
def hint (fc : FlagsContinuation) : Option BranchHint :=
  if fc.IsBranch then some fc.hint_ else none

/-- `true_value()`: `DCHECK(IsSelect())`. -/
def true_value (fc : FlagsContinuation) : Option OpIndex :=
  if fc.IsSelect then some fc.true_value_ else none

/-- `false_value()`: `DCHECK(IsSelect())`. -/
def false_value (fc : FlagsContinuation) : Option OpIndex :=
  if fc.IsSelect then some fc.false_value_ else none

/-- `compares()`: `DCHECK(IsConditionalTrap() || IsConditionalBranch())`. -/
def compares (fc : FlagsContinuation) : Option CompareChain :=
  if fc.IsConditionalTrap || fc.IsConditionalBranch then some fc.compares_
  else none

/-- `num_conditional_compares()`:
`DCHECK(IsConditionalTrap() || IsConditionalBranch())`. -/
def num_conditional_compares (fc : FlagsContinuation) : Option Nat :=
  if fc.IsConditionalTrap || fc.IsConditionalBranch then
    some fc.num_conditional_compares_
  else none

/-- `Negate()`: `DCHECK(!IsNone())`,
`DCHECK(!IsConditionalTrap() && !IsConditionalBranch())`, then
`condition_ = NegateFlagsCondition(condition_)`. -/
def Negate (fc : FlagsContinuation) : Option FlagsContinuation :=
  if fc.IsNone then none
  else if fc.IsConditionalTrap || fc.IsConditionalBranch then none
  else some { fc with condition_ := NegateFlagsCondition fc.condition_ }

/-- `Commute()`: same assertions as `Negate`, then
`condition_ = CommuteFlagsCondition(condition_)`. -/
def Commute (fc : FlagsContinuation) : Option FlagsContinuation :=
  if fc.IsNone then none
  else if fc.IsConditionalTrap || fc.IsConditionalBranch then none
  else some { fc with condition_ := CommuteFlagsCondition fc.condition_ }

/-- `Overwrite(condition)`:
`DCHECK(!IsConditionalTrap() && !IsConditionalBranch())`. -/
def Overwrite (fc : FlagsContinuation) (condition : FlagsCondition) :
    Option FlagsContinuation :=
  if fc.IsConditionalTrap || fc.IsConditionalBranch then none
  else some { fc with condition_ := condition }

/-- `OverwriteAndNegateIfEqual(condition)`: asserts the current condition is
`kEqual` or `kNotEqual` and the mode is not a chain mode, overwrites the
condition, and calls `Negate()` (with its own assertions) when the original
condition was `kEqual`. -/
def OverwriteAndNegateIfEqual (fc : FlagsContinuation)
    (condition : FlagsCondition) : Option FlagsContinuation :=
  if !(fc.condition_ == .kEqual || fc.condition_ == .kNotEqual) then none
  else if fc.IsConditionalTrap || fc.IsConditionalBranch then none
  else
    let negate := fc.condition_ == .kEqual
    let fc := { fc with condition_ := condition }
    if negate then fc.Negate else some fc

/-- `OverwriteUnsignedIfSigned()`: asserts the mode is not a chain mode,
then rewrites exactly the four signed comparisons to their unsigned
counterparts. -/
def OverwriteUnsignedIfSigned (fc : FlagsContinuation) :
    Option FlagsContinuation :=
  if fc.IsConditionalTrap || fc.IsConditionalBranch then none
  else
    some { fc with
           condition_ :=
             match fc.condition_ with
             | .kSignedLessThan => .kUnsignedLessThan
             | .kSignedLessThanOrEqual => .kUnsignedLessThanOrEqual
             | .kSignedGreaterThan => .kUnsignedGreaterThan
             | .kSignedGreaterThanOrEqual => .kUnsignedGreaterThanOrEqual
             | c => c }

end FlagsContinuation

/-- The numeric value of a flags mode, following the declared order of the
modes. -/
def FlagsMode.val : FlagsMode → Nat
  | .kFlags_none => 0
  | .kFlags_branch => 1
  | .kFlags_conditional_branch => 2
  | .kFlags_deoptimize => 3
  | .kFlags_set => 4
  | .kFlags_trap => 5
  | .kFlags_conditional_trap => 6
  | .kFlags_select => 7

/-- The numeric value of a flags condition, following the declared order of
the constructors. -/
def FlagsCondition.val : FlagsCondition → Nat
  | .kEqual => 0
  | .kNotEqual => 1
  | .kSignedLessThan => 2
  | .kSignedGreaterThanOrEqual => 3
  | .kSignedLessThanOrEqual => 4
  | .kSignedGreaterThan => 5
  | .kUnsignedLessThan => 6
  | .kUnsignedGreaterThanOrEqual => 7
  | .kUnsignedLessThanOrEqual => 8
  | .kUnsignedGreaterThan => 9

/-- Bit position of the flags-mode field within an opcode word. -/
def kFlagsModeShift : Nat := 14
/-- Bit width of the flags-mode field (8 modes fit in 3 bits). -/
def kFlagsModeWidth : Nat := 3
/-- Bit position of the flags-condition field within an opcode word. -/
def kFlagsConditionShift : Nat := 17
/-- Bit width of the flags-condition field. -/
def kFlagsConditionWidth : Nat := 4

namespace FlagsModeField

/-- Modelled from the spec: the flags-mode bitfield of the opcode word
("an opcode word: a target-specific base opcode packed together with a
flags-mode and, if applicable, a flags-condition").  `FlagsModeField` is a
`BitField` defined in `instruction-codes.h`, outside the sources. -/
def encode (m : FlagsMode) : Nat := m.val * 2 ^ kFlagsModeShift

/-- Extract the flags-mode field from an opcode word. -/
def decode (opcode : Nat) : Nat :=
  opcode / 2 ^ kFlagsModeShift % 2 ^ kFlagsModeWidth

end FlagsModeField

namespace FlagsConditionField

/-- Modelled from the spec: the flags-condition bitfield of the opcode word.
`FlagsConditionField` is a `BitField` defined in `instruction-codes.h`,
outside the sources. -/
def encode (c : FlagsCondition) : Nat := c.val * 2 ^ kFlagsConditionShift

/-- Extract the flags-condition field from an opcode word. -/
def decode (opcode : Nat) : Nat :=
  opcode / 2 ^ kFlagsConditionShift % 2 ^ kFlagsConditionWidth

end FlagsConditionField

/-- `FlagsContinuation::Encode`:
`opcode |= FlagsModeField::encode(mode_);` and, when the mode is not
`kFlags_none`, `opcode |= FlagsConditionField::encode(condition_);`. -/
def FlagsContinuation.Encode (fc : FlagsContinuation)
    (opcode : InstructionCode) : InstructionCode :=
  let opcode := opcode ||| FlagsModeField.encode fc.mode_
  if fc.mode_ ≠ .kFlags_none then
    opcode ||| FlagsConditionField.encode fc.condition_
  else opcode

/-- Modelled from the spec: the chain-building step of the conditional
compare fusion (the architecture-specific selector that accumulates chains
is not among the sources).  A chain of fewer than `kMaxCompareChainSize`
steps accepts one more step; attempting a step beyond the bound yields
`none`, which forces the caller to flush to sequential unfused compares —
the accumulated steps are never silently truncated. -/
def tryAddCompareToChain (chain : List ConditionalCompare)
    (step : ConditionalCompare) : Option (List ConditionalCompare) :=
  if chain.length < kMaxCompareChainSize then some (chain ++ [step]) else none

/-- Modelled from the spec: packing an accumulated list of compare steps
into the fixed `compare_chain_t` array plus its step count, as the
architecture-specific selector does before calling `ForConditionalBranch` /
`ForConditionalTrap`.  A list that does not fit the four slots yields
`none` (flush to sequential compares), never a truncated chain. -/
def buildCompareChain (steps : List ConditionalCompare) :
    Option (CompareChain × Nat) :=
  match steps with
  | [a] => some (⟨a, a, a, a⟩, 1)
  | [a, b] => some (⟨a, b, b, b⟩, 2)
  | [a, b, c] => some (⟨a, b, c, c⟩, 3)
  | [a, b, c, d] => some (⟨a, b, c, d⟩, 4)
  | _ => none

/-- A conditional-branch continuation built from an accumulated step list,
via `buildCompareChain` and `ForConditionalBranch`. -/
def ForConditionalBranchOfSteps (steps : List ConditionalCompare)
    (branch_condition : FlagsCondition) (true_block false_block : BlockPtr) :
    Option FlagsContinuation :=
  (buildCompareChain steps).bind fun p =>
    FlagsContinuation.ForConditionalBranch p.1 p.2 branch_condition
      true_block false_block

/-- A conditional-trap continuation built from an accumulated step list,
via `buildCompareChain` and `ForConditionalTrap`. -/
def ForConditionalTrapOfSteps (steps : List ConditionalCompare)
    (condition : FlagsCondition) (trap_id : TrapId) :
    Option FlagsContinuation :=
  (buildCompareChain steps).map fun p =>
    FlagsContinuation.ForConditionalTrap p.1 p.2 condition trap_id

/-- The selector state consulted by the graph-covering predicates: per-node
block assignment, users, effect levels, and the effect levels at which
side-effecting operations sit. -/
structure SelectorState where
  blockOf : Nat → Nat
  users : Nat → List Nat
  effectLevel : Nat → Nat
  sideEffectLevels : List Nat

/-- Whether effect level `l` lies strictly between the effect levels of
`user` and `node`. -/
def effectLevelStrictlyBetween (s : SelectorState) (user node l : Nat) :
    Bool :=
  (s.effectLevel node < l && l < s.effectLevel user) ||
  (s.effectLevel user < l && l < s.effectLevel node)

/-- Modelled from the spec: `InstructionSelector::CanCover` — "true only if
`node` has exactly one use (which is `user`), both are in the same block,
and no side-effecting operation's effect-level lies strictly between them".
The body lives in `instruction-selector.cc`, outside the sources; the
header declares it at line 563. -/
def CanCover (s : SelectorState) (user node : Nat) : Bool :=
  s.users node == [user] &&
  s.blockOf user == s.blockOf node &&
  s.sideEffectLevels.all fun l => !effectLevelStrictlyBetween s user node l

/-- Liveness bookkeeping: the `defined_` and `used_` bit vectors of the
selector plus the per-node `IsRequiredWhenUnused` operation effect. -/
structure LivenessState where
  defined_ : Nat → Bool
  used_ : Nat → Bool
  requiredWhenUnused : Nat → Bool

/-- Modelled from the spec: `IsDefined` — "checks if `node` was already
defined" (the `defined_` bit).  The body lives in
`instruction-selector.cc`, outside the sources. -/
def IsDefined (s : LivenessState) (node : Nat) : Bool := s.defined_ node

/-- Modelled from the spec: `IsUsed` — "true if the node has a real use
*or* carries a must-emit-regardless-of-uses effect".  The body lives in
`instruction-selector.cc`, outside the sources. -/
def IsUsed (s : LivenessState) (node : Nat) : Bool :=
  s.requiredWhenUnused node || s.used_ node

/-- Modelled from the spec: `IsReallyUsed` — like `IsUsed` but "ignores the
`IsRequiredWhenUnused` effect".  The body lives in
`instruction-selector.cc`, outside the sources. -/
def IsReallyUsed (s : LivenessState) (node : Nat) : Bool := s.used_ node

/-- `InstructionSelector::IsLive`: `!IsDefined(node) && IsUsed(node)`. -/
def IsLive (s : LivenessState) (node : Nat) : Bool :=
  !IsDefined s node && IsUsed s node

/-- `InstructionSelector::IsReallyLive`:
`!IsDefined(node) && IsReallyUsed(node)`. -/
def IsReallyLive (s : LivenessState) (node : Nat) : Bool :=
  !IsDefined s node && IsReallyUsed s node

/-- `turboshaft::Simd128ShuffleOp`: two vector inputs and sixteen raw
shuffle bytes. -/
structure Simd128ShuffleOp where
  inputs : List OpIndex
  shuffle : List Nat
deriving DecidableEq, Repr

/-- `InstructionSelector::SimdShuffleView`: a node together with the
128-bit shuffle operation and the `input_mapping_` indirection vector. -/
structure SimdShuffleView where
  node_ : OpIndex
  input_mapping_ : List Nat
  op128_ : Simd128ShuffleOp
deriving DecidableEq, Repr

namespace SimdShuffleView

/-- The `SimdShuffleView` constructor: `input_mapping_` starts as the
identity `[0, 1, ..., input_count - 1]`. -/
def mk' (node : OpIndex) (op : Simd128ShuffleOp) : SimdShuffleView :=
  { node_ := node, input_mapping_ := List.range op.inputs.length,
    op128_ := op }

/-- `data()`: the raw shuffle bytes of the operation. -/
def data (v : SimdShuffleView) : List Nat := v.op128_.shuffle

/-- `input(index)`: `op128_->input(input_mapping_[index])`. -/
def input (v : SimdShuffleView) (index : Nat) : OpIndex :=
  v.op128_.inputs.getD (v.input_mapping_.getD index 0) OpIndex.invalid

/-- `SwapInputs()`: `std::swap(input_mapping_[0], input_mapping_[1])`. -/
def SwapInputs (v : SimdShuffleView) : SimdShuffleView :=
  { v with
    input_mapping_ :=
      (v.input_mapping_.set 0 (v.input_mapping_.getD 1 0)).set 1
        (v.input_mapping_.getD 0 0) }

/-- `DuplicateFirstInput()`: `DCHECK_LE(2, input_mapping_.size())`, then
`input_mapping_[1] = input_mapping_[0]`. -/
def DuplicateFirstInput (v : SimdShuffleView) : Option SimdShuffleView :=
  if 2 ≤ v.input_mapping_.length then
    some { v with
           input_mapping_ :=
             v.input_mapping_.set 1 (v.input_mapping_.getD 0 0) }
  else none

end SimdShuffleView

/-- `InstructionSelector::CanonicalizeShuffle` (the 128-bit instantiation):
copies the raw shuffle bytes out of the view, asks
`wasm::SimdShuffle::CanonicalizeShuffle` (whose body is outside the
sources, so it is passed here as `wasmCanonicalize`, taking the
inputs-equal bit and the copied bytes to the rewritten bytes plus the
`needs_swap` and `is_swizzle` bits), swaps the view's inputs when a swap is
needed, and duplicates the first input when the shuffle is a swizzle.
`getVirtualRegister` stands for `GetVirtualRegister`, also outside the
sources.  Returns the updated view, the shuffle bytes, and `is_swizzle`;
`none` models the `DCHECK` inside `DuplicateFirstInput`. -/
def CanonicalizeShuffle
    (wasmCanonicalize : Bool → List Nat → List Nat × Bool × Bool)
    (getVirtualRegister : OpIndex → Nat) (view : SimdShuffleView) :
    Option (SimdShuffleView × List Nat × Bool) :=
  let shuffle := view.data
  let inputs_equal :=
    getVirtualRegister (view.input 0) == getVirtualRegister (view.input 1)
  let r := wasmCanonicalize inputs_equal shuffle
  let shuffle := r.1
  let needs_swap := r.2.1
  let is_swizzle := r.2.2
  let view := if needs_swap then view.SwapInputs else view
  if is_swizzle then
    (view.DuplicateFirstInput).map fun v => (v, shuffle, is_swizzle)
  else some (view, shuffle, is_swizzle)

/-! ## Helper lemmas -/

theorem NegateFlagsCondition_involutive (c : FlagsCondition) :
    NegateFlagsCondition (NegateFlagsCondition c) = c := by
  cases c <;> rfl

theorem buildCompareChain_le (steps : List ConditionalCompare)
    (p : CompareChain × Nat) (h : buildCompareChain steps = some p) :
    p.2 ≤ kMaxCompareChainSize := by
  match steps with
  | [] => exact Option.noConfusion h
  | [a] => injection h with h; subst h; show 1 ≤ kMaxCompareChainSize; decide
  | [a, b] =>
    injection h with h; subst h; show 2 ≤ kMaxCompareChainSize; decide
  | [a, b, c] =>
    injection h with h; subst h; show 3 ≤ kMaxCompareChainSize; decide
  | [a, b, c, d] =>
    injection h with h; subst h; show 4 ≤ kMaxCompareChainSize; decide
  | a :: b :: c :: d :: e :: rest => exact Option.noConfusion h

theorem forConditionalBranch_num (compares : CompareChain) (num : Nat)
    (bc : FlagsCondition) (tb fb : BlockPtr) (fc : FlagsContinuation)
    (h : FlagsContinuation.ForConditionalBranch compares num bc tb fb =
      some fc) :
    fc.num_conditional_compares = some num := by
  unfold FlagsContinuation.ForConditionalBranch at h
  split at h
  · injection h with h; subst h; rfl
  · exact Option.noConfusion h

theorem forConditionalTrap_num (compares : CompareChain) (num : Nat)
    (c : FlagsCondition) (tid : TrapId) :
    (FlagsContinuation.ForConditionalTrap compares num c tid).num_conditional_compares =
      some num := rfl

theorem flagsMode_val_lt (m : FlagsMode) : m.val < 8 := by
  cases m <;> decide

theorem flagsCondition_val_lt (c : FlagsCondition) : c.val < 16 := by
  cases c <;> decide

theorem encode_eq_add (fc : FlagsContinuation) (opcode : Nat)
    (h : opcode < 2 ^ kFlagsModeShift) :
    fc.Encode opcode =
      2 ^ kFlagsConditionShift *
          (if fc.mode_ = .kFlags_none then 0 else fc.condition_.val) +
        (2 ^ kFlagsModeShift * fc.mode_.val + opcode) := by
  have hmlt := flagsMode_val_lt fc.mode_
  have e1 : opcode ||| FlagsModeField.encode fc.mode_ =
      2 ^ kFlagsModeShift * fc.mode_.val + opcode := by
    rw [FlagsModeField.encode, Nat.mul_comm, Nat.lor_comm]
    exact (Nat.mul_add_lt_is_or h _).symm
  have p14 : (2 : Nat) ^ kFlagsModeShift = 16384 := by
    norm_num [kFlagsModeShift]
  have p17 : (2 : Nat) ^ kFlagsConditionShift = 131072 := by
    norm_num [kFlagsConditionShift]
  have hsum : 2 ^ kFlagsModeShift * fc.mode_.val + opcode <
      2 ^ kFlagsConditionShift := by
    have h' : opcode < 16384 := p14 ▸ h
    rw [p14, p17]
    omega
  rw [FlagsContinuation.Encode]
  by_cases hm : fc.mode_ = .kFlags_none
  · rw [if_neg (not_not_intro hm), if_pos hm, hm]
    simp [FlagsModeField.encode, FlagsMode.val]
  · rw [if_pos hm, e1, if_neg hm, FlagsConditionField.encode,
      Nat.mul_comm fc.condition_.val, Nat.lor_comm]
    exact (Nat.mul_add_lt_is_or hsum _).symm

/-- C4: `Encode` packs the continuation's mode into the flags-mode field,
packs the condition into the flags-condition field exactly when the mode is
not `None` (a `None` continuation contributes no condition bits), and
leaves the base opcode bits intact. -/
theorem encode_packs_mode_and_condition (fc : FlagsContinuation)
    (opcode : Nat) (h : opcode < 2 ^ kFlagsModeShift) :
    FlagsModeField.decode (fc.Encode opcode) = fc.mode_.val ∧
    FlagsConditionField.decode (fc.Encode opcode) =
      (if fc.mode_ = .kFlags_none then 0 else fc.condition_.val) ∧
    ((fc.Encode opcode : Nat)) % 2 ^ kFlagsModeShift = opcode := by
  rw [encode_eq_add fc opcode h, FlagsModeField.decode,
    FlagsConditionField.decode]
  have hmlt := flagsMode_val_lt fc.mode_
  have hcv : (if fc.mode_ = .kFlags_none then 0 else fc.condition_.val) < 16 := by
    have := flagsCondition_val_lt fc.condition_
    split <;> omega
  have p14 : (2 : Nat) ^ kFlagsModeShift = 16384 := by
    norm_num [kFlagsModeShift]
  rw [p14] at h
  set cv := (if fc.mode_ = FlagsMode.kFlags_none then 0 else fc.condition_.val)
    with hcveq
  set m := fc.mode_.val with hmeq
  simp only [kFlagsModeShift, kFlagsConditionShift, kFlagsModeWidth,
    kFlagsConditionWidth]
  refine ⟨by omega, by omega, ?_⟩
  show (2 ^ 17 * cv + (2 ^ 14 * m + opcode)) % 2 ^ 14 = opcode
  omega

/-- Witness for C4: encoding a trap continuation on `kNotEqual` into the
base opcode 5 puts mode value 5 and condition value 1 into their fields and
keeps the base opcode. -/
theorem encode_packs_witness :
    FlagsModeField.decode ((FlagsContinuation.ForTrap .kNotEqual 0).Encode 5) =
      5 ∧
    FlagsConditionField.decode
        ((FlagsContinuation.ForTrap .kNotEqual 0).Encode 5) = 1 ∧
    (((FlagsContinuation.ForTrap .kNotEqual 0).Encode 5 : Nat)) %
        2 ^ kFlagsModeShift = 5 :=
  encode_packs_mode_and_condition (FlagsContinuation.ForTrap .kNotEqual 0) 5
    (by norm_num [kFlagsModeShift])

theorem canCover_eq_true_iff (s : SelectorState) (user node : Nat) :
    CanCover s user node = true ↔
      (s.users node = [user] ∧ s.blockOf user = s.blockOf node ∧
        ∀ l ∈ s.sideEffectLevels,
          effectLevelStrictlyBetween s user node l = false) := by
  simp [CanCover, and_assoc, List.all_eq_true]

/-! ## Claims -/

/-- C1: `CanCover(user, node)` is true only if `node`'s unique use is
`user`, both share a block, and no side-effecting operation's effect level
lies strictly between them; it is false whenever `node` has more than one
use, whenever the blocks differ, or whenever some side-effecting operation's
effect level lies strictly between them. -/
theorem can_cover_characterization (s : SelectorState) (user node : Nat) :
    (CanCover s user node = true →
      s.users node = [user] ∧ s.blockOf user = s.blockOf node ∧
      ∀ l ∈ s.sideEffectLevels,
        effectLevelStrictlyBetween s user node l = false) ∧
    (s.users node ≠ [user] → CanCover s user node = false) ∧
    (1 < (s.users node).length → CanCover s user node = false) ∧
    (s.blockOf user ≠ s.blockOf node → CanCover s user node = false) ∧
    (∀ l ∈ s.sideEffectLevels,
      effectLevelStrictlyBetween s user node l = true →
      CanCover s user node = false) := by
  have hiff := canCover_eq_true_iff s user node
  refine ⟨hiff.mp, ?_, ?_, ?_, ?_⟩
  · intro hne
    cases hcc : CanCover s user node
    · rfl
    · exact absurd (hiff.mp hcc).1 hne
  · intro hlen
    cases hcc : CanCover s user node
    · rfl
    · rw [(hiff.mp hcc).1] at hlen
      simp at hlen
  · intro hb
    cases hcc : CanCover s user node
    · rfl
    · exact absurd (hiff.mp hcc).2.1 hb
  · intro l hl hbet
    cases hcc : CanCover s user node
    · rfl
    · have := (hiff.mp hcc).2.2 l hl
      rw [hbet] at this
      exact Bool.noConfusion this

/-- C2: for every flags continuation whose mode is not `None`,
`ConditionalBranch`, or `ConditionalTrap`, applying `Negate` twice restores
the original continuation (in particular its condition). -/
theorem negate_negate (fc : FlagsContinuation)
    (h1 : fc.mode_ ≠ .kFlags_none)
    (h2 : fc.mode_ ≠ .kFlags_conditional_branch)
    (h3 : fc.mode_ ≠ .kFlags_conditional_trap) :
    fc.Negate.bind FlagsContinuation.Negate = some fc := by
  simp [FlagsContinuation.Negate, FlagsContinuation.IsNone,
        FlagsContinuation.IsConditionalBranch,
        FlagsContinuation.IsConditionalTrap, h1, h2, h3,
        NegateFlagsCondition_involutive]

/-- Witness for C2: the trap continuation on `kEqual` is restored by a
double negation. -/
theorem negate_negate_witness :
    (FlagsContinuation.ForTrap .kEqual 0).Negate.bind
      FlagsContinuation.Negate = some (FlagsContinuation.ForTrap .kEqual 0) :=
  negate_negate (FlagsContinuation.ForTrap .kEqual 0) (by decide) (by decide)
    (by decide)

/-- C3: the conditional-compare chain holds at most `kMaxCompareChainSize = 4`
steps: every `ConditionalBranch` or `ConditionalTrap` continuation built
from an accumulated step list reports `num_conditional_compares ≤ 4`, and a
step list longer than 4 yields no chain at all (a flush to sequential
compares), never a truncated one. -/
theorem compare_chain_bounded :
    kMaxCompareChainSize = 4 ∧
    (∀ steps bc tb fb fc n,
        ForConditionalBranchOfSteps steps bc tb fb = some fc →
        fc.num_conditional_compares = some n → n ≤ kMaxCompareChainSize) ∧
    (∀ steps c tid fc n,
        ForConditionalTrapOfSteps steps c tid = some fc →
        fc.num_conditional_compares = some n → n ≤ kMaxCompareChainSize) ∧
    (∀ steps, kMaxCompareChainSize < steps.length →
        buildCompareChain steps = none) := by
  refine ⟨rfl, ?_, ?_, ?_⟩
  · intro steps bc tb fb fc n h hn
    rw [ForConditionalBranchOfSteps, Option.bind_eq_some] at h
    obtain ⟨p, hp, hfc⟩ := h
    have hnum := forConditionalBranch_num p.1 p.2 bc tb fb fc hfc
    rw [hn] at hnum
    injection hnum with hnum
    subst hnum
    exact buildCompareChain_le steps p hp
  · intro steps c tid fc n h hn
    rw [ForConditionalTrapOfSteps, Option.map_eq_some'] at h
    obtain ⟨p, hp, hfc⟩ := h
    subst hfc
    rw [forConditionalTrap_num] at hn
    injection hn with hn
    subst hn
    exact buildCompareChain_le steps p hp
  · intro steps h
    match steps with
    | [] => simp [kMaxCompareChainSize] at h
    | [a] => simp [kMaxCompareChainSize] at h
    | [a, b] => simp [kMaxCompareChainSize] at h
    | [a, b, c] => simp [kMaxCompareChainSize] at h
    | [a, b, c, d] => simp [kMaxCompareChainSize] at h
    | a :: b :: c :: d :: e :: rest => rfl

/-- C7: `OverwriteUnsignedIfSigned` (on a non-chain continuation) succeeds,
turns each of the four signed comparisons into its unsigned counterpart,
leaves every other condition unchanged, and leaves the mode and every other
payload field untouched. -/
theorem overwrite_unsigned_if_signed_spec (fc : FlagsContinuation)
    (h1 : fc.mode_ ≠ .kFlags_conditional_branch)
    (h2 : fc.mode_ ≠ .kFlags_conditional_trap) :
    ∃ fc', fc.OverwriteUnsignedIfSigned = some fc' ∧
      (fc.condition_ = .kSignedLessThan →
        fc'.condition_ = .kUnsignedLessThan) ∧
      (fc.condition_ = .kSignedLessThanOrEqual →
        fc'.condition_ = .kUnsignedLessThanOrEqual) ∧
      (fc.condition_ = .kSignedGreaterThan →
        fc'.condition_ = .kUnsignedGreaterThan) ∧
      (fc.condition_ = .kSignedGreaterThanOrEqual →
        fc'.condition_ = .kUnsignedGreaterThanOrEqual) ∧
      (fc.condition_ ≠ .kSignedLessThan →
        fc.condition_ ≠ .kSignedLessThanOrEqual →
        fc.condition_ ≠ .kSignedGreaterThan →
        fc.condition_ ≠ .kSignedGreaterThanOrEqual →
        fc'.condition_ = fc.condition_) ∧
      fc'.mode_ = fc.mode_ ∧
      fc'.final_condition_ = fc.final_condition_ ∧
      fc'.num_conditional_compares_ = fc.num_conditional_compares_ ∧
      fc'.compares_ = fc.compares_ ∧
      fc'.reason_ = fc.reason_ ∧
      fc'.node_id_ = fc.node_id_ ∧
      fc'.feedback_ = fc.feedback_ ∧
      fc'.frame_state_or_result_ = fc.frame_state_or_result_ ∧
      fc'.true_block_ = fc.true_block_ ∧
      fc'.false_block_ = fc.false_block_ ∧
      fc'.trap_id_ = fc.trap_id_ ∧
      fc'.true_value_ = fc.true_value_ ∧
      fc'.false_value_ = fc.false_value_ ∧
      fc'.hint_ = fc.hint_ := by
  have hg : (fc.IsConditionalTrap || fc.IsConditionalBranch) = false := by
    simp [FlagsContinuation.IsConditionalBranch,
          FlagsContinuation.IsConditionalTrap, h1, h2]
  rw [FlagsContinuation.OverwriteUnsignedIfSigned, hg]
  simp only [Bool.false_eq_true, if_false]
  refine ⟨_, rfl, ?_, ?_, ?_, ?_, ?_, rfl, rfl, rfl, rfl, rfl, rfl, rfl, rfl,
    rfl, rfl, rfl, rfl, rfl, rfl⟩ <;> cases hcc : fc.condition_ <;> simp_all

/-- Witness for C7: a trap continuation on `kSignedLessThan` is rewritten
to `kUnsignedLessThan`. -/
theorem overwrite_unsigned_if_signed_witness :
    ∃ fc', (FlagsContinuation.ForTrap .kSignedLessThan
        0).OverwriteUnsignedIfSigned = some fc' ∧
      fc'.condition_ = .kUnsignedLessThan ∧
      fc'.mode_ = .kFlags_trap ∧ fc'.trap_id_ = 0 := by
  obtain ⟨fc', heq, hc, _, _, _, _, hmode, hrest⟩ :=
    overwrite_unsigned_if_signed_spec
      (FlagsContinuation.ForTrap .kSignedLessThan 0) (by decide) (by decide)
  exact ⟨fc', heq, hc rfl, hmode, hrest.2.2.2.2.2.2.2.2.2.1⟩

/-- C5: every mode-specific payload accessor yields a value exactly in its
matching mode(s) and fails the checked assertion (here: `none`) in every
other mode, and all five condition mutators fail on the chain modes
(`ConditionalBranch`, `ConditionalTrap`). -/
theorem mode_guarded_access (fc : FlagsContinuation) :
    ((fc.reason).isSome = fc.IsDeoptimize) ∧
    ((fc.node_id).isSome = fc.IsDeoptimize) ∧
    ((fc.feedback).isSome = fc.IsDeoptimize) ∧
    ((fc.frame_state).isSome = fc.IsDeoptimize) ∧
    ((fc.result).isSome = (fc.IsSet || fc.IsSelect)) ∧
    ((fc.trap_id).isSome = (fc.IsTrap || fc.IsConditionalTrap)) ∧
    ((fc.true_block).isSome = (fc.IsBranch || fc.IsConditionalBranch)) ∧
    ((fc.false_block).isSome = (fc.IsBranch || fc.IsConditionalBranch)) ∧
    ((fc.hint).isSome = fc.IsBranch) ∧
    ((fc.true_value).isSome = fc.IsSelect) ∧
    ((fc.false_value).isSome = fc.IsSelect) ∧
    ((fc.compares).isSome = (fc.IsConditionalBranch || fc.IsConditionalTrap)) ∧
    ((fc.num_conditional_compares).isSome =
      (fc.IsConditionalBranch || fc.IsConditionalTrap)) ∧
    ((fc.final_condition).isSome =
      (fc.IsConditionalBranch || fc.IsConditionalTrap)) ∧
    ((fc.IsConditionalBranch || fc.IsConditionalTrap) = true →
      fc.Negate = none ∧ fc.Commute = none ∧
      (∀ c, fc.Overwrite c = none) ∧
      (∀ c, fc.OverwriteAndNegateIfEqual c = none) ∧
      fc.OverwriteUnsignedIfSigned = none) := by
  rcases fc with ⟨mode, rest⟩
  cases mode <;>
    simp [FlagsContinuation.reason, FlagsContinuation.node_id,
      FlagsContinuation.feedback, FlagsContinuation.frame_state,
      FlagsContinuation.result, FlagsContinuation.trap_id,
      FlagsContinuation.true_block, FlagsContinuation.false_block,
      FlagsContinuation.hint, FlagsContinuation.true_value,
      FlagsContinuation.false_value, FlagsContinuation.compares,
      FlagsContinuation.num_conditional_compares,
      FlagsContinuation.final_condition, FlagsContinuation.Negate,
      FlagsContinuation.Commute, FlagsContinuation.Overwrite,
      FlagsContinuation.OverwriteAndNegateIfEqual,
      FlagsContinuation.OverwriteUnsignedIfSigned,
      FlagsContinuation.IsNone, FlagsContinuation.IsBranch,
      FlagsContinuation.IsConditionalBranch, FlagsContinuation.IsDeoptimize,
      FlagsContinuation.IsSet, FlagsContinuation.IsTrap,
      FlagsContinuation.IsConditionalTrap, FlagsContinuation.IsSelect]

/-- C6: on a continuation whose condition is `kEqual` or `kNotEqual` (and
whose mode permits condition mutation), `OverwriteAndNegateIfEqual c`
succeeds, keeps the mode, and sets the condition to `c` when the original
condition was `kNotEqual` and to the negation of `c` when it was `kEqual`. -/
theorem overwrite_and_negate_if_equal_spec (fc : FlagsContinuation)
    (c : FlagsCondition)
    (hb : fc.condition_ = .kEqual ∨ fc.condition_ = .kNotEqual)
    (h0 : fc.mode_ ≠ .kFlags_none)
    (h1 : fc.mode_ ≠ .kFlags_conditional_branch)
    (h2 : fc.mode_ ≠ .kFlags_conditional_trap) :
    ∃ fc', fc.OverwriteAndNegateIfEqual c = some fc' ∧
      fc'.mode_ = fc.mode_ ∧
      (fc.condition_ = .kNotEqual → fc'.condition_ = c) ∧
      (fc.condition_ = .kEqual → fc'.condition_ = NegateFlagsCondition c) := by
  rcases hb with hb | hb
  · refine ⟨{ fc with condition_ := NegateFlagsCondition c }, ?_, rfl, ?_,
      fun _ => rfl⟩
    · simp [FlagsContinuation.OverwriteAndNegateIfEqual,
        FlagsContinuation.Negate, FlagsContinuation.IsNone,
        FlagsContinuation.IsConditionalBranch,
        FlagsContinuation.IsConditionalTrap, hb, h0, h1, h2]
    · intro hne; rw [hb] at hne; exact absurd hne (by decide)
  · refine ⟨{ fc with condition_ := c }, ?_, rfl, fun _ => rfl, ?_⟩
    · simp [FlagsContinuation.OverwriteAndNegateIfEqual,
        FlagsContinuation.Negate, FlagsContinuation.IsNone,
        FlagsContinuation.IsConditionalBranch,
        FlagsContinuation.IsConditionalTrap, hb, h0, h1, h2]
    · intro heq; rw [hb] at heq; exact absurd heq (by decide)

/-- Witness for C6: overwriting a `kEqual` trap continuation with
`kUnsignedLessThan` negates it to `kUnsignedGreaterThanOrEqual`. -/
theorem overwrite_and_negate_if_equal_witness :
    ∃ fc', (FlagsContinuation.ForTrap .kEqual 5).OverwriteAndNegateIfEqual
        .kUnsignedLessThan = some fc' ∧
      fc'.mode_ = .kFlags_trap ∧
      fc'.condition_ = .kUnsignedGreaterThanOrEqual := by
  obtain ⟨fc', heq, hmode, _, heq2⟩ :=
    overwrite_and_negate_if_equal_spec (FlagsContinuation.ForTrap .kEqual 5)
      .kUnsignedLessThan (Or.inl rfl) (by decide) (by decide) (by decide)
  exact ⟨fc', heq, hmode, heq2 rfl⟩

/-- C8: `ForDeoptimize` yields a continuation exactly when the frame state
is valid; an invalid frame state fails the checked assertion (`none`), and
a returned continuation always carries the (valid) frame state. -/
theorem for_deoptimize_requires_frame_state (condition : FlagsCondition)
    (reason : DeoptimizeReason) (node_id : Nat) (feedback : FeedbackSource)
    (frame_state : OpIndex) :
    ((FlagsContinuation.ForDeoptimize condition reason node_id feedback
        frame_state).isSome = frame_state.valid) ∧
    (∀ fc, FlagsContinuation.ForDeoptimize condition reason node_id feedback
        frame_state = some fc →
      fc.frame_state = some frame_state ∧ frame_state.valid = true) := by
  cases hv : frame_state.valid <;>
    simp [FlagsContinuation.ForDeoptimize, hv, FlagsContinuation.frame_state,
      FlagsContinuation.IsDeoptimize]

/-- C9: on a two-input shuffle view, `CanonicalizeShuffle` hands the copied
raw shuffle bytes to the canonicalizer, swaps the view's two inputs exactly
when the canonicalizer reports `needs_swap`, and duplicates the first input
into the second slot exactly when it reports `is_swizzle` — after which
`view.input 0` and `view.input 1` are the same operation. -/
theorem canonicalize_shuffle_spec
    (wasmCanonicalize : Bool → List Nat → List Nat × Bool × Bool)
    (getVirtualRegister : OpIndex → Nat) (node : OpIndex)
    (op : Simd128ShuffleOp) (r : List Nat × Bool × Bool)
    (h2 : op.inputs.length = 2)
    (hr : r = wasmCanonicalize
        (getVirtualRegister ((SimdShuffleView.mk' node op).input 0) ==
          getVirtualRegister ((SimdShuffleView.mk' node op).input 1))
        (SimdShuffleView.mk' node op).data) :
    ∃ view',
      CanonicalizeShuffle wasmCanonicalize getVirtualRegister
          (SimdShuffleView.mk' node op) = some (view', r.1, r.2.2) ∧
      view'.node_ = node ∧ view'.op128_ = op ∧
      view'.input_mapping_ =
        (if r.2.2 then (if r.2.1 then [1, 1] else [0, 0])
         else (if r.2.1 then [1, 0] else [0, 1])) ∧
      (r.2.2 = true → view'.input 0 = view'.input 1) := by
  have hmap : (SimdShuffleView.mk' node op).input_mapping_ = [0, 1] := by
    simp [SimdShuffleView.mk', h2]
    rfl
  rcases r with ⟨sh, ns, sw⟩
  rw [CanonicalizeShuffle, ← hr]
  cases ns <;> cases sw <;>
    simp_all [SimdShuffleView.SwapInputs, SimdShuffleView.DuplicateFirstInput,
      SimdShuffleView.input, hmap] <;>
    exact ⟨rfl, rfl⟩

/-- Witness for C9: a canonicalizer reporting a swizzle without a swap
duplicates the first input, making the two view inputs coincide. -/
theorem canonicalize_shuffle_witness :
    ∃ view',
      CanonicalizeShuffle (fun _ sh => (sh, false, true)) (fun _ => 0)
          (SimdShuffleView.mk' ⟨some 9⟩
            { inputs := [⟨some 1⟩, ⟨some 2⟩], shuffle := [3, 2, 1, 0] }) =
        some (view', [3, 2, 1, 0], true) ∧
      view'.input 0 = view'.input 1 := by
  obtain ⟨view', heq, _, _, _, hdup⟩ :=
    canonicalize_shuffle_spec (fun _ sh => (sh, false, true)) (fun _ => 0)
      ⟨some 9⟩ { inputs := [⟨some 1⟩, ⟨some 2⟩], shuffle := [3, 2, 1, 0] }
      ([3, 2, 1, 0], false, true) rfl rfl
  exact ⟨view', heq, hdup rfl⟩

/-- C10: `IsLive` is exactly not-defined-and-used, `IsReallyLive` is
exactly not-defined-and-really-used, and `IsUsed` differs from
`IsReallyUsed` only by the forced-emission (`IsRequiredWhenUnused`)
effect. -/
theorem is_live_characterization (s : LivenessState) (n : Nat) :
    IsLive s n = (!IsDefined s n && IsUsed s n) ∧
    IsReallyLive s n = (!IsDefined s n && IsReallyUsed s n) ∧
    IsUsed s n = (IsReallyUsed s n || s.requiredWhenUnused n) := by
  refine ⟨rfl, rfl, ?_⟩
  simp [IsUsed, IsReallyUsed, Bool.or_comm]

end V8
